import Mathlib

/-!
Shallow embedding of `gfx-toybox` (`src/lib.rs`): the surface negotiation in
`State::new`, the `State::resize` and `State::render` operations, and the
event-loop body of `run`.  External `wgpu`/`winit` types are modelled as small
inductive types carrying exactly the structure the code inspects; GPU side
effects are recorded as an explicit `Effect` trace.
-/

set_option autoImplicit false

namespace GfxToybox

/-- Model of `winit::dpi::PhysicalSize<u32>`. -/
structure PhysicalSize where
  width : Nat
  height : Nat
deriving DecidableEq, Repr

/-- Model of `wgpu::TextureFormat`, restricted to common surface formats.
`wgpu`'s `is_srgb` returns `true` exactly on the `-Srgb` variants. -/
inductive TextureFormat where
  | Rgba8Unorm
  | Rgba8UnormSrgb
  | Bgra8Unorm
  | Bgra8UnormSrgb
  | Rgba16Float
deriving DecidableEq, Repr

/-- Model of `wgpu::TextureFormat::is_srgb`. -/
def TextureFormat.is_srgb : TextureFormat → Bool
  | .Rgba8UnormSrgb => true
  | .Bgra8UnormSrgb => true
  | _ => false

/-- Model of `wgpu::PresentMode`. -/
inductive PresentMode where
  | AutoVsync
  | AutoNoVsync
  | Fifo
  | FifoRelaxed
  | Immediate
  | Mailbox
deriving DecidableEq, Repr

/-- Model of `wgpu::CompositeAlphaMode`. -/
inductive CompositeAlphaMode where
  | Auto
  | Opaque
  | PreMultiplied
  | PostMultiplied
  | Inherit
deriving DecidableEq, Repr

/-- Model of `wgpu::TextureUsages` as a bitset; `RENDER_ATTACHMENT = 1 << 4`. -/
def TextureUsages.RENDER_ATTACHMENT : Nat := 16

/-- Model of `wgpu::SurfaceConfiguration` (the fields the code sets). -/
structure SurfaceConfiguration where
  usage : Nat
  format : TextureFormat
  width : Nat
  height : Nat
  present_mode : PresentMode
  desired_maximum_frame_latency : Nat
  alpha_mode : CompositeAlphaMode
  view_formats : List TextureFormat
deriving DecidableEq, Repr

/-- Model of `wgpu::SurfaceCapabilities` (the fields the code reads). -/
structure SurfaceCapabilities where
  formats : List TextureFormat
  present_modes : List PresentMode
  alpha_modes : List CompositeAlphaMode
deriving DecidableEq, Repr

/-- Model of `wgpu::SurfaceError` (the variants the loop matches on). -/
inductive SurfaceError where
  | Timeout
  | Outdated
  | Lost
  | OutOfMemory
deriving DecidableEq, Repr

/-- Model of `winit::event::ElementState`. -/
inductive ElementState where
  | Pressed
  | Released
deriving DecidableEq, Repr

/-- Model of `winit::keyboard::KeyCode`, restricted to the keys the model
distinguishes. -/
inductive KeyCode where
  | Escape
  | Space
  | KeyW
deriving DecidableEq, Repr

/-- Model of `winit::keyboard::PhysicalKey`. -/
inductive PhysicalKey where
  | Code (code : KeyCode)
  | Unidentified
deriving DecidableEq, Repr

/-- Model of `winit::event::KeyEvent`: the `run` pattern binds `state` and
`physical_key` and ignores the rest with `..`; `repeatFlag` stands for the
ignored `repeat` field. -/
structure KeyEvent where
  state : ElementState
  physical_key : PhysicalKey
  repeatFlag : Bool
deriving DecidableEq, Repr

/-- Model of `winit::event::WindowEvent`, restricted to the arms `run`
matches; `Other` stands for every event kind the wildcard arm absorbs. -/
inductive WindowEvent where
  | Resized (physical_size : PhysicalSize)
  | RedrawRequested
  | CloseRequested
  | KeyboardInput (event : KeyEvent)
  | Other
deriving DecidableEq, Repr

/-- Model of `winit::event::Event`: `WindowEvent` carries whether the event's
`window_id` matches the state's window (the guard in `run`). -/
inductive Event where
  | Resumed
  | WindowEvent (sameWindow : Bool) (event : WindowEvent)
  | Other
deriving DecidableEq, Repr

/-- Observable side effects of the loop body, recorded in call order. -/
inductive Effect where
  | configureSurface (config : SurfaceConfiguration)
  | requestRedraw
  | updateCall
  | renderCall
  | submit
  | present
  | exit
  | logError
  | logWarn
  | logDebug
deriving DecidableEq, Repr

/-- Model of the observable fields of `State` in `src/lib.rs` (`surface`,
`device`, `queue` and `window` are opaque handles with no modelled state). -/
structure State where
  config : SurfaceConfiguration
  size : PhysicalSize
deriving DecidableEq, Repr

/-- Format selection in `State::new` (lib.rs:63-66):
`surface_caps.formats.iter().find(|fmt| fmt.is_srgb()).copied()
 .unwrap_or(surface_caps.formats[0])`.
The `unwrap_or` argument is evaluated eagerly, so `formats[0]` is indexed
(and would panic on an empty list, modelled as `none`) in every case. -/
def surface_fmt (surface_caps : SurfaceCapabilities) : Option TextureFormat := do
  let fallback ← surface_caps.formats.get? 0
  pure ((surface_caps.formats.find? (fun fmt => fmt.is_srgb)).getD fallback)

/-- Configuration construction in `State::new` (lib.rs:61-87): builds the
`SurfaceConfiguration` from the capability lists and the window's inner size.
The indexing `present_modes[0]` / `alpha_modes[0]` panics on an empty list,
modelled as `none`. -/
def State.new (surface_caps : SurfaceCapabilities) (size : PhysicalSize) :
    Option State := do
  let fmt ← surface_fmt surface_caps
  let pm ← surface_caps.present_modes.get? 0
  let am ← surface_caps.alpha_modes.get? 0
  pure
    { config :=
        { usage := TextureUsages.RENDER_ATTACHMENT
          format := fmt
          width := size.width
          height := size.height
          present_mode := pm
          desired_maximum_frame_latency := 2
          alpha_mode := am
          view_formats := [] }
      size := size }

/-- Model of `State::resize` (lib.rs:93-100).  Returns the new state together
with the trace of surface reconfigurations it performs. -/
def State.resize (s : State) (new_size : PhysicalSize) : State × List Effect :=
  if new_size.width > 0 && new_size.height > 0 then
    let s' : State :=
      { config := { s.config with width := new_size.width, height := new_size.height }
        size := new_size }
    (s', [Effect.configureSurface s'.config])
  else
    (s, [])

/-- Model of `State::input` (lib.rs:102-104): always declines. -/
def State.input (_s : State) (_event : WindowEvent) : Bool := false

/-- Model of `State::render` (lib.rs:108-145).  `acq` is the outcome of
`surface.get_current_texture()`, the single fallible step; on success the
command buffer is submitted and the frame presented. -/
def State.render (_s : State) (acq : Option SurfaceError) :
    Option SurfaceError × List Effect :=
  match acq with
  | some e => (some e, [])
  | none => (none, [Effect.submit, Effect.present])

/-- Mutable state of the closure in `run` (lib.rs:172-175): the graphics
`State`, the `surface_configured` flag, and whether `control_flow.exit()` has
been requested. -/
structure LoopState where
  state : State
  surface_configured : Bool
  exited : Bool
deriving DecidableEq, Repr

/-- Loop state at entry of `event_loop.run` (lib.rs:172-173): fresh `State`,
`surface_configured = false`. -/
def initLoopState (surface_caps : SurfaceCapabilities) (size : PhysicalSize) :
    Option LoopState :=
  (State.new surface_caps size).map fun s =>
    { state := s, surface_configured := false, exited := false }

/-- Body of the `WindowEvent` arm in `run` (lib.rs:182-221), after the
`window_id` guard and the `input` offer.  `acq` is the frame-acquisition
outcome consulted if `render` is reached. -/
def handleWindowEvent (ls : LoopState) (event : WindowEvent)
    (acq : Option SurfaceError) : LoopState × List Effect :=
  if State.input ls.state event then
    (ls, [])
  else
    match event with
    | WindowEvent.Resized physical_size =>
        let ls1 := { ls with surface_configured := true }
        let r := State.resize ls1.state physical_size
        ({ ls1 with state := r.1 }, r.2)
    | WindowEvent.RedrawRequested =>
        if ls.surface_configured = false then
          (ls, [Effect.requestRedraw])
        else
          let r := State.render ls.state acq
          let pre := Effect.requestRedraw :: Effect.updateCall :: Effect.renderCall :: r.2
          match r.1 with
          | none => (ls, pre)
          | some SurfaceError.Lost =>
              let rz := State.resize ls.state ls.state.size
              ({ ls with state := rz.1 }, pre ++ rz.2)
          | some SurfaceError.Outdated =>
              let rz := State.resize ls.state ls.state.size
              ({ ls with state := rz.1 }, pre ++ rz.2)
          | some SurfaceError.OutOfMemory =>
              ({ ls with exited := true }, pre ++ [Effect.logError, Effect.exit])
          | some SurfaceError.Timeout =>
              (ls, pre ++ [Effect.logWarn])
    | WindowEvent.CloseRequested =>
        ({ ls with exited := true }, [Effect.exit])
    | WindowEvent.KeyboardInput ke =>
        match ke.state, ke.physical_key with
        | ElementState.Pressed, PhysicalKey.Code KeyCode.Escape =>
            ({ ls with exited := true }, [Effect.exit])
        | _, _ => (ls, [])
    | WindowEvent.Other => (ls, [])

/-- Top-level event dispatch in `run` (lib.rs:175-224): `Resumed` only logs,
window events for a different window fall to the wildcard arm. -/
def handleEvent (ls : LoopState) (ev : Event) (acq : Option SurfaceError) :
    LoopState × List Effect :=
  match ev with
  | Event.Resumed => (ls, [Effect.logDebug])
  | Event.WindowEvent sameWindow we =>
      if sameWindow then handleWindowEvent ls we acq else (ls, [])
  | Event.Other => (ls, [])

/-- The event loop driver: delivers events in order, pairing each with its
frame-acquisition outcome; after `control_flow.exit()` has been requested no
further events reach the closure. -/
def runLoop (ls : LoopState) (evs : List (Event × Option SurfaceError)) :
    LoopState × List Effect :=
  match evs with
  | [] => (ls, [])
  | (ev, acq) :: rest =>
      if ls.exited = true then
        (ls, [])
      else
        let r := handleEvent ls ev acq
        let rr := runLoop r.1 rest
        (rr.1, r.2 ++ rr.2)

/-- Whether an event is a resize event for some window (the only events that
set `surface_configured`). -/
def Event.isResize : Event → Bool
  | .WindowEvent _ (.Resized _) => true
  | _ => false

/-- Sample capability set: a non-sRGB format ahead of two sRGB formats. -/
def sampleCaps : SurfaceCapabilities :=
  { formats := [TextureFormat.Bgra8Unorm, TextureFormat.Bgra8UnormSrgb,
                TextureFormat.Rgba8UnormSrgb]
    present_modes := [PresentMode.Fifo]
    alpha_modes := [CompositeAlphaMode.Opaque] }

/-- Sample negotiated configuration at 800x600. -/
def sampleConfig : SurfaceConfiguration :=
  { usage := TextureUsages.RENDER_ATTACHMENT
    format := TextureFormat.Bgra8UnormSrgb
    width := 800
    height := 600
    present_mode := PresentMode.Fifo
    alpha_mode := CompositeAlphaMode.Opaque
    desired_maximum_frame_latency := 2
    view_formats := [] }

/-- Sample graphics state at 800x600. -/
def sampleState : State :=
  { config := sampleConfig, size := { width := 800, height := 600 } }

/-- Sample loop state before any resize event. -/
def lsUnconfigured : LoopState :=
  { state := sampleState, surface_configured := false, exited := false }

/-- Sample loop state after a valid resize event. -/
def lsConfigured : LoopState :=
  { state := sampleState, surface_configured := true, exited := false }

/-- Loop state produced by `initLoopState sampleCaps {width := 0, height := 0}`:
the window's initial inner size has both dimensions zero. -/
def lsZeroInit : LoopState :=
  { state :=
      { config := { sampleConfig with width := 0, height := 0 }
        size := { width := 0, height := 0 } }
    surface_configured := false
    exited := false }

section Theorems

/-- C2: a resize with both dimensions positive stores the new size in the
configuration and in `size`, and reconfigures the surface with exactly the
updated configuration. -/
theorem resize_positive_updates_config (s : State) (w h : Nat)
    (hw : 0 < w) (hh : 0 < h) :
    (s.resize { width := w, height := h }).1.config.width = w ∧
    (s.resize { width := w, height := h }).1.config.height = h ∧
    (s.resize { width := w, height := h }).1.size = { width := w, height := h } ∧
    (s.resize { width := w, height := h }).2 =
      [Effect.configureSurface (s.resize { width := w, height := h }).1.config] := by
  simp [State.resize, hw, hh]

/-- Witness for C2 at the sample state and size 640x480. -/
theorem resize_positive_updates_config_witness :
    (sampleState.resize { width := 640, height := 480 }).1.config.width = 640 ∧
    (sampleState.resize { width := 640, height := 480 }).1.config.height = 480 ∧
    (sampleState.resize { width := 640, height := 480 }).1.size =
      { width := 640, height := 480 } ∧
    (sampleState.resize { width := 640, height := 480 }).2 =
      [Effect.configureSurface (sampleState.resize { width := 640, height := 480 }).1.config] :=
  resize_positive_updates_config sampleState 640 480 (by decide) (by decide)

/-- C3: a resize with a zero dimension is a no-op: the state (configuration
and stored size) is unchanged and no surface reconfiguration happens. -/
theorem resize_zero_is_noop (s : State) (sz : PhysicalSize)
    (h : sz.width = 0 ∨ sz.height = 0) :
    s.resize sz = (s, []) := by
  rcases h with h | h <;> simp [State.resize, h]

/-- Witness for C3 at the sample state and size 0x480. -/
theorem resize_zero_is_noop_witness :
    sampleState.resize { width := 0, height := 480 } = (sampleState, []) :=
  resize_zero_is_noop sampleState { width := 0, height := 480 } (Or.inl rfl)

/-- C10: resize (with any dimensions) leaves every configuration field other
than width and height unchanged. -/
theorem resize_preserves_negotiated_fields (s : State) (sz : PhysicalSize) :
    (s.resize sz).1.config.format = s.config.format ∧
    (s.resize sz).1.config.usage = s.config.usage ∧
    (s.resize sz).1.config.present_mode = s.config.present_mode ∧
    (s.resize sz).1.config.alpha_mode = s.config.alpha_mode ∧
    (s.resize sz).1.config.desired_maximum_frame_latency =
      s.config.desired_maximum_frame_latency ∧
    (s.resize sz).1.config.view_formats = s.config.view_formats := by
  unfold State.resize
  split <;> simp

/-- C9: configuration construction in `State::new` succeeds exactly when all
three capability lists are non-empty; with an empty formats, present-modes or
alpha-modes list the indexing `[0]` panics (modelled as `none`). -/
theorem new_succeeds_iff_caps_nonempty (caps : SurfaceCapabilities)
    (size : PhysicalSize) :
    (State.new caps size).isSome = true ↔
      caps.formats ≠ [] ∧ caps.present_modes ≠ [] ∧ caps.alpha_modes ≠ [] := by
  rcases caps with ⟨fs, ps, ams⟩
  cases fs <;> cases ps <;> cases ams <;>
    simp [State.new, surface_fmt]

/-- Helper: `find?` returns the first element satisfying the predicate when
everything before it fails the predicate. -/
theorem find?_append_of_forall_false {α : Type} (p : α → Bool) :
    ∀ (l1 : List α) (f : α) (l2 : List α),
      (∀ g ∈ l1, p g = false) → p f = true →
      (l1 ++ f :: l2).find? p = some f := by
  intro l1
  induction l1 with
  | nil =>
      intro f l2 _ hf
      simp [List.find?_cons, hf]
  | cons g gs ih =>
      intro f l2 hall hf
      have hg : p g = false := hall g (List.mem_cons_self g gs)
      simp only [List.cons_append, List.find?_cons, hg]
      exact ih f l2 (fun x hx => hall x (List.mem_cons_of_mem g hx)) hf

/-- C4: format selection is deterministic.  If `caps.formats` splits as
`l1 ++ f :: l2` with no sRGB format in `l1`, and either `f` is sRGB (first
sRGB in list order) or the whole list has no sRGB format and `f` is its head,
then the selected format is `f`. -/
theorem surface_fmt_deterministic (caps : SurfaceCapabilities)
    (l1 : List TextureFormat) (f : TextureFormat) (l2 : List TextureFormat)
    (hsplit : caps.formats = l1 ++ f :: l2)
    (hpre : ∀ g ∈ l1, g.is_srgb = false)
    (hcase : f.is_srgb = true ∨
      (l1 = [] ∧ ∀ g ∈ caps.formats, g.is_srgb = false)) :
    surface_fmt caps = some f := by
  rcases hcase with hf | ⟨hl1, hall⟩
  · have hfind : caps.formats.find? (fun fmt => fmt.is_srgb) = some f := by
      rw [hsplit]
      exact find?_append_of_forall_false _ l1 f l2 hpre hf
    obtain ⟨x, xs, hx⟩ : ∃ x xs, caps.formats = x :: xs := by
      rw [hsplit]
      cases l1 with
      | nil => exact ⟨f, l2, rfl⟩
      | cons g gs => exact ⟨g, gs ++ f :: l2, rfl⟩
    rw [surface_fmt, hfind, hx]
    simp
  · have hfind : caps.formats.find? (fun fmt => fmt.is_srgb) = none := by
      rw [List.find?_eq_none]
      intro x hx
      simp [hall x hx]
    subst hl1
    simp only [List.nil_append] at hsplit
    rw [surface_fmt, hfind, hsplit]
    simp

/-- Witness for C4: in `sampleCaps` the non-sRGB `Bgra8Unorm` is first, and
the first sRGB format `Bgra8UnormSrgb` is selected. -/
theorem surface_fmt_deterministic_witness :
    surface_fmt sampleCaps = some TextureFormat.Bgra8UnormSrgb :=
  surface_fmt_deterministic sampleCaps [TextureFormat.Bgra8Unorm]
    TextureFormat.Bgra8UnormSrgb [TextureFormat.Rgba8UnormSrgb]
    (by decide) (by decide) (Or.inl (by decide))

/-- C8: exact characterization of loop termination.  `control_flow.exit()` is
requested by a window event exactly on a close request, on a key event with
pressed state and physical key Escape (every other key-event field, such as
the repeat flag, is irrelevant), or on a redraw while configured whose frame
acquisition reports out of memory; no other window event terminates.  A
pressed-Escape key event is handled identically to a close request. -/
theorem exit_characterization (ls : LoopState) (event : WindowEvent)
    (acq : Option SurfaceError) :
    (Effect.exit ∈ (handleWindowEvent ls event acq).2 ↔
      (event = WindowEvent.CloseRequested ∨
       (∃ ke, event = WindowEvent.KeyboardInput ke ∧
          ke.state = ElementState.Pressed ∧
          ke.physical_key = PhysicalKey.Code KeyCode.Escape) ∨
       (event = WindowEvent.RedrawRequested ∧ ls.surface_configured = true ∧
          acq = some SurfaceError.OutOfMemory))) ∧
    ((handleWindowEvent ls event acq).1.exited = true ↔
      (ls.exited = true ∨ event = WindowEvent.CloseRequested ∨
       (∃ ke, event = WindowEvent.KeyboardInput ke ∧
          ke.state = ElementState.Pressed ∧
          ke.physical_key = PhysicalKey.Code KeyCode.Escape) ∨
       (event = WindowEvent.RedrawRequested ∧ ls.surface_configured = true ∧
          acq = some SurfaceError.OutOfMemory))) ∧
    (∀ rf : Bool,
      handleWindowEvent ls
        (WindowEvent.KeyboardInput
          { state := ElementState.Pressed
            physical_key := PhysicalKey.Code KeyCode.Escape
            repeatFlag := rf }) acq =
      handleWindowEvent ls WindowEvent.CloseRequested acq) := by
  refine ⟨?_, ?_, ?_⟩
  · cases event with
    | Resized physical_size =>
        have heff : (handleWindowEvent ls (WindowEvent.Resized physical_size) acq).2 =
            (State.resize ls.state physical_size).2 := by
          simp [handleWindowEvent, State.input]
        rw [heff]
        unfold State.resize
        split <;> simp
    | RedrawRequested =>
        cases hcfg : ls.surface_configured with
        | false => simp [handleWindowEvent, State.input, hcfg]
        | true =>
            cases acq with
            | none => simp [handleWindowEvent, State.input, hcfg, State.render]
            | some e =>
                cases e with
                | Timeout => simp [handleWindowEvent, State.input, hcfg, State.render]
                | OutOfMemory => simp [handleWindowEvent, State.input, hcfg, State.render]
                | Lost =>
                    have heff : (handleWindowEvent ls WindowEvent.RedrawRequested
                        (some SurfaceError.Lost)).2 =
                        [Effect.requestRedraw, Effect.updateCall, Effect.renderCall] ++
                          (State.resize ls.state ls.state.size).2 := by
                      simp [handleWindowEvent, State.input, hcfg, State.render]
                    rw [heff]
                    unfold State.resize
                    split <;> simp
                | Outdated =>
                    have heff : (handleWindowEvent ls WindowEvent.RedrawRequested
                        (some SurfaceError.Outdated)).2 =
                        [Effect.requestRedraw, Effect.updateCall, Effect.renderCall] ++
                          (State.resize ls.state ls.state.size).2 := by
                      simp [handleWindowEvent, State.input, hcfg, State.render]
                    rw [heff]
                    unfold State.resize
                    split <;> simp
    | CloseRequested => simp [handleWindowEvent, State.input]
    | KeyboardInput ke =>
        rcases ke with ⟨st, pk, rf⟩
        cases st <;> rcases pk with ⟨code⟩ | _ <;> try cases code
        all_goals
          simp [handleWindowEvent, State.input]
    | Other => simp [handleWindowEvent, State.input]
  · cases event with
    | Resized physical_size =>
        have hst : (handleWindowEvent ls (WindowEvent.Resized physical_size) acq).1.exited =
            ls.exited := by
          simp [handleWindowEvent, State.input]
        rw [hst]
        simp
    | RedrawRequested =>
        cases hcfg : ls.surface_configured with
        | false => simp [handleWindowEvent, State.input, hcfg]
        | true =>
            cases acq with
            | none => simp [handleWindowEvent, State.input, hcfg, State.render]
            | some e =>
                cases e <;> simp [handleWindowEvent, State.input, hcfg, State.render]
    | CloseRequested => simp [handleWindowEvent, State.input]
    | KeyboardInput ke =>
        rcases ke with ⟨st, pk, rf⟩
        cases st <;> rcases pk with ⟨code⟩ | _ <;> try cases code
        all_goals
          simp [handleWindowEvent, State.input]
    | Other => simp [handleWindowEvent, State.input]
  · intro rf
    simp [handleWindowEvent, State.input]

/-- C1: on a redraw whose frame acquisition reports Lost or Outdated while
configured, the handling step is exactly a resize at the context's current
stored size (`state.size`, the last known size): state and effect trace equal
those of that resize call; no frame is presented; no exit is requested and the
application keeps running. -/
theorem lost_outdated_resizes_with_current_size (ls : LoopState) (e : SurfaceError)
    (hconf : ls.surface_configured = true)
    (he : e = SurfaceError.Lost ∨ e = SurfaceError.Outdated) :
    handleWindowEvent ls WindowEvent.RedrawRequested (some e) =
      ({ ls with state := (ls.state.resize ls.state.size).1 },
        [Effect.requestRedraw, Effect.updateCall, Effect.renderCall] ++
          (ls.state.resize ls.state.size).2) ∧
    Effect.present ∉ (handleWindowEvent ls WindowEvent.RedrawRequested (some e)).2 ∧
    Effect.exit ∉ (handleWindowEvent ls WindowEvent.RedrawRequested (some e)).2 ∧
    (handleWindowEvent ls WindowEvent.RedrawRequested (some e)).1.exited = ls.exited := by
  have hstep : handleWindowEvent ls WindowEvent.RedrawRequested (some e) =
      ({ ls with state := (ls.state.resize ls.state.size).1 },
        [Effect.requestRedraw, Effect.updateCall, Effect.renderCall] ++
          (ls.state.resize ls.state.size).2) := by
    rcases he with he | he <;> subst he <;>
      simp [handleWindowEvent, State.input, hconf, State.render]
  refine ⟨hstep, ?_, ?_, ?_⟩
  · rw [hstep]
    unfold State.resize
    split <;> simp
  · rw [hstep]
    unfold State.resize
    split <;> simp
  · rw [hstep]

/-- Witness for C1 at the configured sample state with a Lost surface. -/
theorem lost_outdated_resizes_with_current_size_witness :
    handleWindowEvent lsConfigured WindowEvent.RedrawRequested (some SurfaceError.Lost) =
      ({ lsConfigured with state := (lsConfigured.state.resize lsConfigured.state.size).1 },
        [Effect.requestRedraw, Effect.updateCall, Effect.renderCall] ++
          (lsConfigured.state.resize lsConfigured.state.size).2) ∧
    Effect.present ∉
      (handleWindowEvent lsConfigured WindowEvent.RedrawRequested (some SurfaceError.Lost)).2 ∧
    Effect.exit ∉
      (handleWindowEvent lsConfigured WindowEvent.RedrawRequested (some SurfaceError.Lost)).2 ∧
    (handleWindowEvent lsConfigured WindowEvent.RedrawRequested
      (some SurfaceError.Lost)).1.exited = lsConfigured.exited :=
  lost_outdated_resizes_with_current_size lsConfigured SurfaceError.Lost rfl (Or.inl rfl)

/-- Helper: once exit has been requested, the driver delivers no further
events: no state change and no effects. -/
theorem runLoop_exited (ls : LoopState) (h : ls.exited = true)
    (evs : List (Event × Option SurfaceError)) :
    runLoop ls evs = (ls, []) := by
  cases evs with
  | nil => rfl
  | cons p rest => simp [runLoop, h]

/-- C5: on a redraw whose frame acquisition reports OutOfMemory while
configured, the step requests loop termination exactly once (one `exit`
effect), the exited flag is set, and for every subsequent event list the
driver delivers nothing further — in particular no render call is ever issued
again. -/
theorem out_of_memory_exits_once (ls : LoopState)
    (hconf : ls.surface_configured = true)
    (evs : List (Event × Option SurfaceError)) :
    ((handleWindowEvent ls WindowEvent.RedrawRequested
        (some SurfaceError.OutOfMemory)).2.count Effect.exit = 1) ∧
    ((handleWindowEvent ls WindowEvent.RedrawRequested
        (some SurfaceError.OutOfMemory)).1.exited = true) ∧
    (runLoop (handleWindowEvent ls WindowEvent.RedrawRequested
        (some SurfaceError.OutOfMemory)).1 evs =
      ((handleWindowEvent ls WindowEvent.RedrawRequested
        (some SurfaceError.OutOfMemory)).1, [])) := by
  have hstep : handleWindowEvent ls WindowEvent.RedrawRequested
      (some SurfaceError.OutOfMemory) =
      ({ ls with exited := true },
        [Effect.requestRedraw, Effect.updateCall, Effect.renderCall,
          Effect.logError, Effect.exit]) := by
    simp [handleWindowEvent, State.input, hconf, State.render]
  rw [hstep]
  refine ⟨by simp [List.count_cons], rfl, runLoop_exited _ rfl evs⟩

/-- Witness for C5 at the configured sample state, with a close request and a
redraw pending after the fatal error. -/
theorem out_of_memory_exits_once_witness :
    ((handleWindowEvent lsConfigured WindowEvent.RedrawRequested
        (some SurfaceError.OutOfMemory)).2.count Effect.exit = 1) ∧
    ((handleWindowEvent lsConfigured WindowEvent.RedrawRequested
        (some SurfaceError.OutOfMemory)).1.exited = true) ∧
    (runLoop (handleWindowEvent lsConfigured WindowEvent.RedrawRequested
        (some SurfaceError.OutOfMemory)).1
        [(Event.WindowEvent true WindowEvent.RedrawRequested, none),
         (Event.WindowEvent true WindowEvent.CloseRequested, none)] =
      ((handleWindowEvent lsConfigured WindowEvent.RedrawRequested
        (some SurfaceError.OutOfMemory)).1, [])) :=
  out_of_memory_exits_once lsConfigured rfl
    [(Event.WindowEvent true WindowEvent.RedrawRequested, none),
     (Event.WindowEvent true WindowEvent.CloseRequested, none)]

/-- Helper: a non-resize event handled while unconfigured leaves the flag
false and produces neither a render call nor an update call. -/
theorem step_unconfigured (ls : LoopState) (ev : Event) (acq : Option SurfaceError)
    (hconf : ls.surface_configured = false) (hev : ev.isResize = false) :
    (handleEvent ls ev acq).1.surface_configured = false ∧
    Effect.renderCall ∉ (handleEvent ls ev acq).2 ∧
    Effect.updateCall ∉ (handleEvent ls ev acq).2 := by
  cases ev with
  | Resumed => simp [handleEvent, hconf]
  | Other => simp [handleEvent, hconf]
  | WindowEvent sw we =>
      cases sw with
      | false => simp [handleEvent, hconf]
      | true =>
          cases we with
          | Resized physical_size => simp [Event.isResize] at hev
          | RedrawRequested =>
              simp [handleEvent, handleWindowEvent, State.input, hconf]
          | CloseRequested =>
              simp [handleEvent, handleWindowEvent, State.input, hconf]
          | KeyboardInput ke =>
              rcases ke with ⟨st, pk, rf⟩
              cases st <;> rcases pk with ⟨code⟩ | _ <;> try cases code
              all_goals
                simp [handleEvent, handleWindowEvent, State.input, hconf]
          | Other =>
              simp [handleEvent, handleWindowEvent, State.input, hconf]

/-- Helper: while no resize event has been delivered, the driver never issues
a render or update call. -/
theorem runLoop_no_resize_no_render (ls : LoopState)
    (hconf : ls.surface_configured = false)
    (evs : List (Event × Option SurfaceError))
    (hevs : ∀ p ∈ evs, p.1.isResize = false) :
    Effect.renderCall ∉ (runLoop ls evs).2 ∧
    Effect.updateCall ∉ (runLoop ls evs).2 := by
  induction evs generalizing ls with
  | nil => simp [runLoop]
  | cons p rest ih =>
      obtain ⟨ev, acq⟩ := p
      by_cases hex : ls.exited = true
      · simp [runLoop, hex]
      · rw [Bool.not_eq_true] at hex
        have hone := step_unconfigured ls ev acq hconf
          (hevs ⟨ev, acq⟩ (List.mem_cons_self _ _))
        have hrest := ih (handleEvent ls ev acq).1 hone.1
          (fun q hq => hevs q (List.mem_cons_of_mem _ hq))
        have hrl : runLoop ls ((ev, acq) :: rest) =
            ((runLoop (handleEvent ls ev acq).1 rest).1,
              (handleEvent ls ev acq).2 ++ (runLoop (handleEvent ls ev acq).1 rest).2) := by
          simp [runLoop, hex]
        rw [hrl]
        refine ⟨fun hmem => ?_, fun hmem => ?_⟩
        · rcases List.mem_append.mp hmem with h | h
          · exact hone.2.1 h
          · exact hrest.1 h
        · rcases List.mem_append.mp hmem with h | h
          · exact hone.2.2 h
          · exact hrest.2 h

/-- C6: while `surface_configured` is still false, a redraw request only
requests the next redraw — no render and no update call — and along any event
trace containing no resize event the driver issues zero render and zero
update calls. -/
theorem redraw_before_any_resize_skips_render (ls : LoopState)
    (hconf : ls.surface_configured = false) (acq : Option SurfaceError)
    (evs : List (Event × Option SurfaceError))
    (hevs : ∀ p ∈ evs, p.1.isResize = false) :
    handleWindowEvent ls WindowEvent.RedrawRequested acq = (ls, [Effect.requestRedraw]) ∧
    Effect.renderCall ∉ (runLoop ls evs).2 ∧
    Effect.updateCall ∉ (runLoop ls evs).2 := by
  refine ⟨by simp [handleWindowEvent, State.input, hconf], ?_, ?_⟩
  · exact (runLoop_no_resize_no_render ls hconf evs hevs).1
  · exact (runLoop_no_resize_no_render ls hconf evs hevs).2

/-- Witness for C6: an unconfigured loop state, one pending redraw plus a
resumed event, neither of which is a resize. -/
theorem redraw_before_any_resize_skips_render_witness :
    handleWindowEvent lsUnconfigured WindowEvent.RedrawRequested none =
      (lsUnconfigured, [Effect.requestRedraw]) ∧
    Effect.renderCall ∉ (runLoop lsUnconfigured
      [(Event.WindowEvent true WindowEvent.RedrawRequested, none),
       (Event.Resumed, none)]).2 ∧
    Effect.updateCall ∉ (runLoop lsUnconfigured
      [(Event.WindowEvent true WindowEvent.RedrawRequested, none),
       (Event.Resumed, none)]).2 :=
  redraw_before_any_resize_skips_render lsUnconfigured rfl none
    [(Event.WindowEvent true WindowEvent.RedrawRequested, none),
     (Event.Resumed, none)] (by decide)

/-- Helper: resize keeps configuration width/height equal to the stored size,
and keeps both dimensions positive when they were positive. -/
theorem resize_state_inv (s : State) (sz : PhysicalSize)
    (hw : s.config.width = s.size.width) (hh : s.config.height = s.size.height) :
    ((s.resize sz).1.config.width = (s.resize sz).1.size.width ∧
     (s.resize sz).1.config.height = (s.resize sz).1.size.height) ∧
    (0 < s.size.width → 0 < s.size.height →
      0 < (s.resize sz).1.size.width ∧ 0 < (s.resize sz).1.size.height) := by
  unfold State.resize
  split <;> simp_all

/-- Helper: one driver step keeps configuration equal to stored size, keeps a
positive size positive, and only a resize event can raise the configured
flag. -/
theorem step_size_inv (ls : LoopState) (ev : Event) (acq : Option SurfaceError)
    (hw : ls.state.config.width = ls.state.size.width)
    (hh : ls.state.config.height = ls.state.size.height) :
    ((handleEvent ls ev acq).1.state.config.width =
        (handleEvent ls ev acq).1.state.size.width ∧
     (handleEvent ls ev acq).1.state.config.height =
        (handleEvent ls ev acq).1.state.size.height) ∧
    (0 < ls.state.size.width → 0 < ls.state.size.height →
      0 < (handleEvent ls ev acq).1.state.size.width ∧
      0 < (handleEvent ls ev acq).1.state.size.height) ∧
    ((handleEvent ls ev acq).1.surface_configured = true →
      ls.surface_configured = true ∨ ev.isResize = true) := by
  cases ev with
  | Resumed => exact ⟨⟨hw, hh⟩, fun h1 h2 => ⟨h1, h2⟩, fun h => Or.inl (by simpa [handleEvent] using h)⟩
  | Other => exact ⟨⟨hw, hh⟩, fun h1 h2 => ⟨h1, h2⟩, fun h => Or.inl (by simpa [handleEvent] using h)⟩
  | WindowEvent sw we =>
      cases sw with
      | false =>
          exact ⟨⟨hw, hh⟩, fun h1 h2 => ⟨h1, h2⟩,
            fun h => Or.inl (by simpa [handleEvent] using h)⟩
      | true =>
          cases we with
          | Resized physical_size =>
              have hr := resize_state_inv ls.state physical_size hw hh
              have hst : (handleEvent ls
                  (Event.WindowEvent true (WindowEvent.Resized physical_size)) acq).1.state =
                  (ls.state.resize physical_size).1 := by
                simp [handleEvent, handleWindowEvent, State.input]
              refine ⟨?_, ?_, fun _ => Or.inr (by simp [Event.isResize])⟩
              · rw [hst]; exact hr.1
              · rw [hst]; exact hr.2
          | RedrawRequested =>
              cases hcfg : ls.surface_configured with
              | false =>
                  simp [handleEvent, handleWindowEvent, State.input, hcfg, hw, hh] <;>
                    tauto
              | true =>
                  cases acq with
                  | none =>
                      simp [handleEvent, handleWindowEvent, State.input, hcfg,
                        State.render, hw, hh] <;> tauto
                  | some e =>
                      cases e with
                      | Timeout =>
                          simp [handleEvent, handleWindowEvent, State.input, hcfg,
                            State.render, hw, hh] <;> tauto
                      | OutOfMemory =>
                          simp [handleEvent, handleWindowEvent, State.input, hcfg,
                            State.render, hw, hh] <;> tauto
                      | Lost =>
                          have hr := resize_state_inv ls.state ls.state.size hw hh
                          have hst : (handleEvent ls
                              (Event.WindowEvent true WindowEvent.RedrawRequested)
                              (some SurfaceError.Lost)).1.state =
                              (ls.state.resize ls.state.size).1 := by
                            simp [handleEvent, handleWindowEvent, State.input, hcfg,
                              State.render]
                          refine ⟨?_, ?_, fun _ => Or.inl rfl⟩
                          · rw [hst]; exact hr.1
                          · rw [hst]; exact hr.2
                      | Outdated =>
                          have hr := resize_state_inv ls.state ls.state.size hw hh
                          have hst : (handleEvent ls
                              (Event.WindowEvent true WindowEvent.RedrawRequested)
                              (some SurfaceError.Outdated)).1.state =
                              (ls.state.resize ls.state.size).1 := by
                            simp [handleEvent, handleWindowEvent, State.input, hcfg,
                              State.render]
                          refine ⟨?_, ?_, fun _ => Or.inl rfl⟩
                          · rw [hst]; exact hr.1
                          · rw [hst]; exact hr.2
          | CloseRequested =>
              simp [handleEvent, handleWindowEvent, State.input, hw, hh] <;> tauto
          | KeyboardInput ke =>
              rcases ke with ⟨st, pk, rf⟩
              cases st <;> rcases pk with ⟨code⟩ | _ <;> try cases code
              all_goals
                simp [handleEvent, handleWindowEvent, State.input, hw, hh] <;> tauto
          | Other =>
              simp [handleEvent, handleWindowEvent, State.input, hw, hh] <;> tauto

/-- Helper: along any trace the driver keeps configuration equal to stored
size, keeps a positive size positive, and raises the configured flag only if
the trace contains a resize event. -/
theorem runLoop_size_inv (ls : LoopState)
    (hw : ls.state.config.width = ls.state.size.width)
    (hh : ls.state.config.height = ls.state.size.height)
    (evs : List (Event × Option SurfaceError)) :
    ((runLoop ls evs).1.state.config.width = (runLoop ls evs).1.state.size.width ∧
     (runLoop ls evs).1.state.config.height = (runLoop ls evs).1.state.size.height) ∧
    (0 < ls.state.size.width → 0 < ls.state.size.height →
      0 < (runLoop ls evs).1.state.size.width ∧
      0 < (runLoop ls evs).1.state.size.height) ∧
    ((runLoop ls evs).1.surface_configured = true →
      ls.surface_configured = true ∨ ∃ p ∈ evs, p.1.isResize = true) := by
  induction evs generalizing ls with
  | nil => exact ⟨⟨hw, hh⟩, fun h1 h2 => ⟨h1, h2⟩, fun h => Or.inl h⟩
  | cons p rest ih =>
      obtain ⟨ev, acq⟩ := p
      by_cases hex : ls.exited = true
      · rw [runLoop_exited ls hex]
        exact ⟨⟨hw, hh⟩, fun h1 h2 => ⟨h1, h2⟩, fun h => Or.inl h⟩
      · rw [Bool.not_eq_true] at hex
        have hone := step_size_inv ls ev acq hw hh
        have hrest := ih (handleEvent ls ev acq).1 hone.1.1 hone.1.2
        have hrl : (runLoop ls ((ev, acq) :: rest)).1 =
            (runLoop (handleEvent ls ev acq).1 rest).1 := by
          simp [runLoop, hex]
        rw [hrl]
        refine ⟨hrest.1, ?_, ?_⟩
        · intro h1 h2
          have := hone.2.1 h1 h2
          exact hrest.2.1 this.1 this.2
        · intro hc
          rcases hrest.2.2 hc with hc' | ⟨q, hq, hqr⟩
          · rcases hone.2.2 hc' with hc'' | hr
            · exact Or.inl hc''
            · exact Or.inr ⟨(ev, acq), List.mem_cons_self _ _, hr⟩
          · exact Or.inr ⟨q, List.mem_cons_of_mem _ hq, hqr⟩

/-- Helper: a successful `initLoopState` yields the window's initial size as
both stored size and configuration size, with the flags cleared. -/
theorem initLoopState_spec (caps : SurfaceCapabilities) (size0 : PhysicalSize)
    (ls0 : LoopState) (h : initLoopState caps size0 = some ls0) :
    ls0.state.size = size0 ∧ ls0.state.config.width = size0.width ∧
    ls0.state.config.height = size0.height ∧
    ls0.surface_configured = false ∧ ls0.exited = false := by
  rcases caps with ⟨fs, ps, ams⟩
  cases fs with
  | nil => simp [initLoopState, State.new, surface_fmt] at h
  | cons f fs' =>
      cases ps with
      | nil => simp [initLoopState, State.new, surface_fmt] at h
      | cons p ps' =>
          cases ams with
          | nil => simp [initLoopState, State.new, surface_fmt] at h
          | cons a ams' =>
              simp [initLoopState, State.new, surface_fmt] at h
              subst h
              simp

/-- C7 (counterexample): starting from an initial window size of 0x0, a
single Resized(0,0) event sets the configured flag while the configuration
and stored size keep a zero width — the claimed "configured implies a valid
positive size" invariant fails on this reachable state. -/
theorem configured_invariant_counterexample :
    initLoopState sampleCaps { width := 0, height := 0 } = some lsZeroInit ∧
    (runLoop lsZeroInit
      [(Event.WindowEvent true (WindowEvent.Resized { width := 0, height := 0 }),
        none)]).1.surface_configured = true ∧
    (runLoop lsZeroInit
      [(Event.WindowEvent true (WindowEvent.Resized { width := 0, height := 0 }),
        none)]).1.state.config.width = 0 ∧
    (runLoop lsZeroInit
      [(Event.WindowEvent true (WindowEvent.Resized { width := 0, height := 0 }),
        none)]).1.state.size.width = 0 := by
  decide

/-- C7 (amended): in every reachable state of the frame loop the
configuration width/height equal the stored last-known size; if the initial
window size has both dimensions strictly positive they stay strictly positive
in every reachable state; and the configured flag is raised only after some
resize event — not necessarily one carrying a valid positive size. -/
theorem reachable_config_size_invariant (caps : SurfaceCapabilities)
    (size0 : PhysicalSize) (ls0 : LoopState)
    (hinit : initLoopState caps size0 = some ls0)
    (evs : List (Event × Option SurfaceError)) :
    ((runLoop ls0 evs).1.state.config.width = (runLoop ls0 evs).1.state.size.width ∧
     (runLoop ls0 evs).1.state.config.height = (runLoop ls0 evs).1.state.size.height) ∧
    (0 < size0.width → 0 < size0.height →
      0 < (runLoop ls0 evs).1.state.size.width ∧
      0 < (runLoop ls0 evs).1.state.size.height) ∧
    ((runLoop ls0 evs).1.surface_configured = true →
      ∃ p ∈ evs, p.1.isResize = true) := by
  obtain ⟨hsz, hw, hh, hcfg, hex⟩ := initLoopState_spec caps size0 ls0 hinit
  have h := runLoop_size_inv ls0 (by rw [hsz]; exact hw) (by rw [hsz]; exact hh) evs
  refine ⟨h.1, ?_, ?_⟩
  · intro hpw hph
    exact h.2.1 (by rw [hsz]; exact hpw) (by rw [hsz]; exact hph)
  · intro hc
    rcases h.2.2 hc with hc' | hr
    · rw [hcfg] at hc'
      exact absurd hc' (by simp)
    · exact hr

/-- Witness for the amended C7: the sample capabilities, an 800x600 initial
size, and one valid resize event to 1024x768. -/
theorem reachable_config_size_invariant_witness :
    ((runLoop lsUnconfigured
        [(Event.WindowEvent true (WindowEvent.Resized { width := 1024, height := 768 }),
          none)]).1.state.config.width =
      (runLoop lsUnconfigured
        [(Event.WindowEvent true (WindowEvent.Resized { width := 1024, height := 768 }),
          none)]).1.state.size.width ∧
     (runLoop lsUnconfigured
        [(Event.WindowEvent true (WindowEvent.Resized { width := 1024, height := 768 }),
          none)]).1.state.config.height =
      (runLoop lsUnconfigured
        [(Event.WindowEvent true (WindowEvent.Resized { width := 1024, height := 768 }),
          none)]).1.state.size.height) ∧
    (0 < (800 : Nat) → 0 < (600 : Nat) →
      0 < (runLoop lsUnconfigured
        [(Event.WindowEvent true (WindowEvent.Resized { width := 1024, height := 768 }),
          none)]).1.state.size.width ∧
      0 < (runLoop lsUnconfigured
        [(Event.WindowEvent true (WindowEvent.Resized { width := 1024, height := 768 }),
          none)]).1.state.size.height) ∧
    ((runLoop lsUnconfigured
        [(Event.WindowEvent true (WindowEvent.Resized { width := 1024, height := 768 }),
          none)]).1.surface_configured = true →
      ∃ p ∈ [(Event.WindowEvent true (WindowEvent.Resized { width := 1024, height := 768 }),
          (none : Option SurfaceError))], p.1.isResize = true) :=
  reachable_config_size_invariant sampleCaps { width := 800, height := 600 }
    lsUnconfigured (by decide)
    [(Event.WindowEvent true (WindowEvent.Resized { width := 1024, height := 768 }), none)]

end Theorems

end GfxToybox
